import Mathlib

/-!
Verification development for the Bytus dashboard client.

The definitions below are a shallow embedding of the four dashboard pages
(Transactions, ApiKeys, Settings, Treasury). Each page is a React function
component; we embed its state as a structure, its event handlers and fetch
lifecycle as pure state-transition functions, and its externally visible
behaviour (network requests, localStorage writes, navigation, toasts) as
explicit lists of `Call`/`Eff` values produced by each transition.

React specifics that matter to the embedding:
  - `useState` fields become structure fields with the same initial values;
  - a handler body reads the state of the render it was created in (closure
    capture), so a `setX` inside a handler does not affect reads later in
    the same handler body;
  - `useEffect(f, deps)` re-runs `f` after a render exactly when one of the
    listed dependencies changed; this is modelled by comparing the dependency
    fields of the state before and after a transition.
-/

namespace Bytus

/-- JS `a || b` on strings: the empty string is falsy. -/
def jsOr (s fallback : String) : String :=
  if s = "" then fallback else s

/-- JS `String.prototype.trim()`: strip whitespace from both ends. -/
def jsTrim (s : String) : String :=
  String.mk (((s.data.dropWhile Char.isWhitespace).reverse.dropWhile Char.isWhitespace).reverse)

/-- JS `String.prototype.includes(pat)`: substring containment. -/
def containsSub (s pat : String) : Bool :=
  decide (pat.data <:+: s.data)

/-- The unauthorized classification used in every load handler:
`err.message?.includes("401") || err.message?.includes("Unauthorized")`. -/
def isUnauthorizedMsg (msg : String) : Bool :=
  containsSub msg "401" || containsSub msg "Unauthorized"

/-- JS `String.prototype.replace(c, "")` with a one-character pattern:
remove the first occurrence only. -/
def removeFirst (c : Char) : List Char → List Char
  | [] => []
  | x :: xs => if x = c then xs else x :: removeFirst c xs

/-- Externally visible non-network effects of a handler. -/
inductive Eff where
  | removeAuthToken
  | removeUser
  | redirectLogin
  | toastSuccess (msg : String)
  | toastError (msg : String)
deriving DecidableEq

/-- The effects of an unauthorized load failure:
`localStorage.removeItem("auth_token"); localStorage.removeItem("user");
setLocation("/login")`. -/
def sessionTeardown : List Eff :=
  [Eff.removeAuthToken, Eff.removeUser, Eff.redirectLogin]

/-- Network requests issued through the `api` client. -/
inductive Call where
  | getTransactions (page limit : Nat) (search filt : Option String)
  | getApiKeys
  | postApiKey (name : String)
  | deleteApiKey (id : String)
  | getSettings
  | putSettings (companyName email website : String)
  | getTreasuryPositions
  | getTreasuryPortfolio
deriving DecidableEq

/-! ## Transactions page (source: the `Transactions` component) -/

/-- The `Transaction` interface of the Transactions page. -/
structure Transaction where
  id : String
  tx_type : String
  amount : String
  currency : String
  status : String
  created_at : String
  customer_email : Option String
deriving DecidableEq

/-- Payload of `GET transactions`: `{ transactions, total }`. -/
structure TxData where
  transactions : List Transaction
  total : Nat
deriving DecidableEq

/-- The `useState` fields of the Transactions component. -/
structure TxState where
  transactions : List Transaction
  loading : Bool
  error : Option String
  search : String
  filter : String
  page : Nat
  total : Nat
deriving DecidableEq

/-- Initial state: `[], true, null, "", "all", 1, 0`. -/
def txInit : TxState :=
  { transactions := [], loading := true, error := none,
    search := "", filter := "all", page := 1, total := 0 }

/-- The request parameters built inside `loadTransactions`:
`{ page, limit: 10 }`, plus `search` when non-empty and `filter` when not
`"all"`. -/
def txRequest (s : TxState) : Call :=
  Call.getTransactions s.page 10
    (if s.search = "" then none else some s.search)
    (if s.filter = "all" then none else some s.filter)

/-- Start of `loadTransactions`: `setLoading(true); setError(null)`. -/
def txFetchStart (s : TxState) : TxState :=
  { s with loading := true, error := none }

/-- Successful resolution of a transactions fetch:
`setTransactions(data.transactions); setTotal(data.total)`, then
`setLoading(false)` in the `finally`. The data is written unconditionally;
there is no request identifier or staleness check. -/
def txResolveOk (s : TxState) (d : TxData) : TxState :=
  { s with transactions := d.transactions, total := d.total, loading := false }

/-- Failed resolution of a transactions fetch: the catch block clears the
session and redirects on an unauthorized message, otherwise surfaces the
message; the `finally` clears `loading`. -/
def txResolveErr (s : TxState) (msg : String) : TxState × List Eff :=
  if isUnauthorizedMsg msg then
    ({ s with loading := false }, sessionTeardown)
  else
    ({ s with error := some (jsOr msg "Failed to load transactions"), loading := false }, [])

/-- The `useEffect(..., [page, filter])` of the Transactions page: it re-runs
`loadTransactions` after a state transition exactly when `page` or `filter`
changed. -/
def txEffectCalls (old new : TxState) : List Call :=
  if old.page = new.page ∧ old.filter = new.filter then [] else [txRequest new]

/-- `onValueChange={setFilter}` on the status `Select`: update the filter;
the `[page, filter]` effect then re-runs the fetch (with the page left as it
was). -/
def changeFilter (s : TxState) (v : String) : TxState × List Call :=
  let s1 := { s with filter := v }
  (if txEffectCalls s s1 = [] then s1 else txFetchStart s1, txEffectCalls s s1)

/-- `onChange={(e) => setSearch(e.target.value)}` on the search input: update
the text; `search` is not a dependency of the effect, so no fetch happens. -/
def changeSearch (s : TxState) (v : String) : TxState × List Call :=
  let s1 := { s with search := v }
  (s1, txEffectCalls s s1)

/-- `handleSearch` (run on Enter in the search input and on the search
button): `setPage(1); loadTransactions()`. The `loadTransactions()` call in
the handler body closes over the current render's state, so it still carries
the old `page`; the `[page, filter]` effect afterwards issues a second fetch
at page 1 exactly when the page actually changed. -/
def handleSearch (s : TxState) : TxState × List Call :=
  let s1 := { s with page := 1 }
  (txFetchStart s1, txRequest s :: txEffectCalls s s1)

/-- The Next button: `onClick={() => setPage(p => p + 1)}`, rendered with
`disabled={transactions.length < 10}`; a disabled button cannot fire, so the
transition is the identity in that case. -/
def nextPageClick (s : TxState) : TxState × List Call :=
  if s.transactions.length < 10 then (s, [])
  else
    let s1 := { s with page := s.page + 1 }
    (txFetchStart s1, txEffectCalls s s1)

/-- The Previous button: `onClick={() => setPage(p => Math.max(1, p - 1))}`,
rendered with `disabled={page === 1}`. -/
def prevPageClick (s : TxState) : TxState × List Call :=
  if s.page = 1 then (s, [])
  else
    let s1 := { s with page := max 1 (s.page - 1) }
    (if txEffectCalls s s1 = [] then s1 else txFetchStart s1, txEffectCalls s s1)

/-! ### Overlapping-fetch model for the Transactions page.

Several user actions can issue fetches while earlier ones are still in
flight (for example `handleSearch` issues one fetch directly and the page
effect a second one). Each response that resolves successfully is applied by
`txResolveOk`, in resolution order, with no staleness check. -/

/-- A resolved request: its position in the issuance order together with the
response it carried. -/
structure TxRequestRec where
  issuedAt : Nat
  response : TxData
deriving DecidableEq

/-- Apply the successful responses of a set of requests in the order in
which they resolved, exactly as the component does. -/
def applyResolved (s : TxState) (rs : List TxRequestRec) : TxState :=
  rs.foldl (fun t r => txResolveOk t r.response) s

/-- The most recently issued request among those that resolved (what the
specification says should end up displayed). -/
def mostRecentIssued (rs : List TxRequestRec) : Option TxRequestRec :=
  rs.foldl
    (fun acc r =>
      match acc with
      | none => some r
      | some b => if b.issuedAt < r.issuedAt then some r else some b)
    none

/-! ## ApiKeys page (source: the `ApiKeys` component) -/

/-- The `ApiKey` interface of the ApiKeys page. The source field
`key_prefix` is rendered here as `keyPrefix`. Note the type has no field for
the secret value. -/
structure ApiKey where
  id : String
  name : String
  keyPrefix : String
  created_at : String
  last_used : Option String
  permissions : List String
  status : String
deriving DecidableEq

/-- Modelled from the spec: the payload of `POST api_keys(name)` —
`{..ApiKey fields, secret_key: string}` — because the `api` client module
(`src/lib/api.ts`) is not among the provided sources. The page itself only
reads `result.secret_key` from it. -/
structure CreateKeyResult where
  key : ApiKey
  secret_key : String
deriving DecidableEq

/-- The `useState` fields of the ApiKeys component. -/
structure AKState where
  keys : List ApiKey
  loading : Bool
  error : Option String
  isCreateDialogOpen : Bool
  newKeyName : String
  createdKey : Option String
  showCreatedKey : Bool
  creating : Bool
deriving DecidableEq

/-- Initial state: `[], true, null, false, "", null, false, false`. -/
def akInit : AKState :=
  { keys := [], loading := true, error := none, isCreateDialogOpen := false,
    newKeyName := "", createdKey := none, showCreatedKey := false, creating := false }

/-- Resolution of `loadApiKeys` after `setLoading(true); setError(null)`:
on success the whole server list replaces `keys`; on failure the catch block
clears the session on an unauthorized message and otherwise surfaces it;
`loading` is cleared in the `finally`. `loadApiKeys` catches every error, so
it never throws into its callers. -/
def applyAkLoad (s : AKState) (outcome : Except String (List ApiKey)) : AKState × List Eff :=
  match outcome with
  | .ok data => ({ s with keys := data, loading := false }, [])
  | .error msg =>
      if isUnauthorizedMsg msg then
        ({ s with loading := false }, sessionTeardown)
      else
        ({ s with error := some (jsOr msg "Failed to load API keys"), loading := false }, [])

deriving instance DecidableEq for Except

/-- The user- and network-driven transitions of the ApiKeys page. Network
outcomes are parameters: `Except.error msg` stands for a rejected call whose
error message is `msg`. -/
inductive AKOp where
  | load (outcome : Except String (List ApiKey))
  | setName (v : String)
  | openCreateDialog
  | cancelCreateDialog
  | create (outcome : Except String CreateKeyResult) (reload : Except String (List ApiKey))
  | deleteKey (id keyName : String) (confirmed : Bool)
      (outcome : Except String Unit) (reload : Except String (List ApiKey))
  | closeCreatedKeyDialog
deriving DecidableEq

/-- One transition of the ApiKeys page: the new state, the network calls it
issues, and its other effects, straight from the component's handlers:

  - `load` is `loadApiKeys`;
  - `create` is `handleCreateKey`: it validates the trimmed name first (a
    validation failure only toasts), then awaits `api.createApiKey`; on
    success it stores the secret in `createdKey`, opens the reveal dialog,
    clears the name field, awaits `loadApiKeys()` (which cannot throw) and
    toasts success; if the create call itself rejects it only toasts;
  - `deleteKey` is `handleDeleteKey`: it returns before any call when the
    `confirm` prompt is declined, otherwise awaits `api.deleteApiKey`, then
    `loadApiKeys()`, then toasts;
  - `closeCreatedKeyDialog` is `handleCloseCreatedKeyDialog`:
    `setShowCreatedKey(false); setCreatedKey(null);
    setIsCreateDialogOpen(false)` — and nothing else. -/
def akStep (s : AKState) : AKOp → AKState × List Call × List Eff
  | .load outcome =>
      let r := applyAkLoad { s with loading := true, error := none } outcome
      (r.1, [Call.getApiKeys], r.2)
  | .setName v => ({ s with newKeyName := v }, [], [])
  | .openCreateDialog => ({ s with isCreateDialogOpen := true }, [], [])
  | .cancelCreateDialog => ({ s with isCreateDialogOpen := false }, [], [])
  | .create outcome reload =>
      if jsTrim s.newKeyName = "" then
        (s, [], [Eff.toastError "Please enter a key name"])
      else
        match outcome with
        | .error msg =>
            ({ s with creating := false },
             [Call.postApiKey (jsTrim s.newKeyName)],
             [Eff.toastError (jsOr msg "Failed to create API key")])
        | .ok result =>
            let s1 := { s with createdKey := some result.secret_key,
                               showCreatedKey := true, newKeyName := "" }
            let r := applyAkLoad { s1 with loading := true, error := none } reload
            ({ r.1 with creating := false },
             [Call.postApiKey (jsTrim s.newKeyName), Call.getApiKeys],
             r.2 ++ [Eff.toastSuccess "API key created successfully"])
  | .deleteKey id _keyName confirmed outcome reload =>
      if confirmed then
        match outcome with
        | .error msg =>
            (s, [Call.deleteApiKey id],
             [Eff.toastError (jsOr msg "Failed to delete API key")])
        | .ok _ =>
            let r := applyAkLoad { s with loading := true, error := none } reload
            (r.1, [Call.deleteApiKey id, Call.getApiKeys],
             r.2 ++ [Eff.toastSuccess "API key deleted successfully"])
      else
        (s, [], [])
  | .closeCreatedKeyDialog =>
      ({ s with showCreatedKey := false, createdKey := none, isCreateDialogOpen := false }, [], [])

/-- Run a sequence of ApiKeys transitions, keeping only the state. -/
def akRun (s : AKState) (ops : List AKOp) : AKState :=
  ops.foldl (fun t op => (akStep t op).1) s

/-- Whether a transition is a create whose network call succeeded (the only
transition that can write `createdKey` to a non-`none` value). -/
def AKOp.isCreateOk : AKOp → Bool
  | .create (.ok _) _ => true
  | _ => false

/-- The server-provided key list a transition may install, when there is
one: the payload of the `GET api_keys` that the transition awaited. -/
def AKOp.loadedList : AKOp → Option (List ApiKey)
  | .load (.ok d) => some d
  | .create _ (.ok d) => some d
  | .deleteKey _ _ _ _ (.ok d) => some d
  | _ => none

/-! ## Settings page (source: the `Settings` component) -/

/-- The `UserSettings` interface of the Settings page. -/
structure UserSettings where
  company_name : String
  email : String
  website : String
  registration_number : String
  kyc_status : String
deriving DecidableEq

/-- The `useState` fields of the Settings component. -/
structure SettingsState where
  settings : UserSettings
  loading : Bool
  saving : Bool
  error : Option String
deriving DecidableEq

/-- Initial state: empty strings, `kyc_status: "pending"`, `loading: true`. -/
def settingsInit : SettingsState :=
  { settings := { company_name := "", email := "", website := "",
                  registration_number := "", kyc_status := "pending" },
    loading := true, saving := false, error := none }

/-- `loadSettings`: `setLoading(true); setError(null)`, `GET settings`, then
either install the payload or run the shared unauthorized/other catch. -/
def loadSettings (s : SettingsState) (outcome : Except String UserSettings) :
    SettingsState × List Call × List Eff :=
  match outcome with
  | .ok data =>
      ({ s with settings := data, loading := false, error := none }, [Call.getSettings], [])
  | .error msg =>
      if isUnauthorizedMsg msg then
        ({ s with loading := false, error := none }, [Call.getSettings], sessionTeardown)
      else
        ({ s with error := some (jsOr msg "Failed to load settings"), loading := false },
         [Call.getSettings], [])

/-- `handleSave`: `setSaving(true)`, `PUT settings` carrying only
`company_name`, `email` and `website`, a success or error toast, and
`setSaving(false)` in the `finally`. The response payload is ignored and no
re-fetch is performed on success. -/
def handleSave (s : SettingsState) (outcome : Except String UserSettings) :
    SettingsState × List Call × List Eff :=
  match outcome with
  | .ok _ =>
      ({ s with saving := false },
       [Call.putSettings s.settings.company_name s.settings.email s.settings.website],
       [Eff.toastSuccess "Settings updated successfully"])
  | .error msg =>
      ({ s with saving := false },
       [Call.putSettings s.settings.company_name s.settings.email s.settings.website],
       [Eff.toastError (jsOr msg "Failed to update settings")])

/-! ## Treasury page (source: the `Treasury` component) -/

/-- The `TreasuryPosition` interface of the Treasury page; the JS number
`value` is modelled exactly as a rational. -/
structure TreasuryPosition where
  name : String
  protocol : String
  balance : String
  value : Rat
  apy : String
deriving DecidableEq

/-- The `useState` fields of the Treasury component. -/
structure TreasuryState where
  positions : List TreasuryPosition
  totalValue : Rat
  loading : Bool
  error : Option String
deriving DecidableEq

/-- Initial state: `[], 0, true, null`. -/
def treasuryInit : TreasuryState :=
  { positions := [], totalValue := 0, loading := true, error := none }

/-- `loadTreasury`: `Promise.all` of the positions and portfolio calls, then
install both payloads, with the same catch block as the other pages. -/
def loadTreasury (s : TreasuryState) (outcome : Except String (List TreasuryPosition × Rat)) :
    TreasuryState × List Call × List Eff :=
  match outcome with
  | .ok data =>
      ({ s with positions := data.1, totalValue := data.2, loading := false, error := none },
       [Call.getTreasuryPositions, Call.getTreasuryPortfolio], [])
  | .error msg =>
      if isUnauthorizedMsg msg then
        ({ s with loading := false, error := none },
         [Call.getTreasuryPositions, Call.getTreasuryPortfolio], sessionTeardown)
      else
        ({ s with error := some (jsOr msg "Failed to load treasury data"), loading := false },
         [Call.getTreasuryPositions, Call.getTreasuryPortfolio], [])

/-! ### The APY computation (`parseAPY` and the Avg APY card) -/

/-- Value of a digit run, most significant first. -/
def digitsToNat (ds : List Char) : Nat :=
  ds.foldl (fun n c => 10 * n + (c.toNat - 48)) 0

/-- The exponent part of a JS float literal, after the `e`/`E`: an optional
sign and then digits. When no digits follow, `parseFloat` backtracks to the
mantissa, which is the same as an exponent of 0 here. -/
def parseExpPart : List Char → Int
  | '+' :: rest => (digitsToNat (rest.takeWhile Char.isDigit) : Int)
  | '-' :: rest => -(digitsToNat (rest.takeWhile Char.isDigit) : Int)
  | cs => (digitsToNat (cs.takeWhile Char.isDigit) : Int)

/-- JS `parseFloat`, as mantissa and decimal exponent: skip leading
whitespace, an optional sign, integer digits, an optional fraction, an
optional exponent; the longest valid numeric prefix is used and `none` is
returned (NaN) when it has no digits at all. (The `Infinity` literal is not
modelled; no input of this client produces it.) The value denoted is
`mantissa * 10 ^ exp`. -/
def jsParseFloatRep (s : String) : Option (Int × Int) :=
  let cs := s.data.dropWhile Char.isWhitespace
  let signed :=
    match cs with
    | '-' :: rest => ((-1 : Int), rest)
    | '+' :: rest => ((1 : Int), rest)
    | _ => ((1 : Int), cs)
  let intDigits := signed.2.takeWhile Char.isDigit
  let afterInt := signed.2.drop intDigits.length
  let fracPart :=
    match afterInt with
    | '.' :: rest => (rest.takeWhile Char.isDigit, (rest.drop (rest.takeWhile Char.isDigit).length))
    | _ => (([] : List Char), afterInt)
  if intDigits = [] ∧ fracPart.1 = [] then none
  else
    some (signed.1 * (digitsToNat (intDigits ++ fracPart.1) : Int),
      (match fracPart.2 with
       | 'e' :: rest => parseExpPart rest
       | 'E' :: rest => parseExpPart rest
       | _ => 0) - (fracPart.1.length : Int))

/-- The rational a parse result denotes. -/
def repToRat (p : Int × Int) : Rat :=
  (p.1 : Rat) * (10 : Rat) ^ p.2

/-- JS `parseFloat` as a partial rational: `none` is NaN. -/
def jsParseFloat (s : String) : Option Rat :=
  (jsParseFloatRep s).map repToRat

/-- `parseAPY`: `parseFloat(apy.replace("%", "")) || 0`. `replace` with a
string pattern replaces only the first occurrence; `|| 0` turns NaN into 0
(a parsed 0 is 0 either way). -/
def parseAPY (apy : String) : Rat :=
  (jsParseFloat (String.mk (removeFirst '%' apy.data))).getD 0

/-- JS `toFixed(2)` rounding: the integer `n` with `n / 100` closest to the
value, ties to the larger `n`, i.e. `⌊q * 100 + 1/2⌋`. -/
def jsRound2 (q : Rat) : Int :=
  Int.floor (q * 100 + 1 / 2)

/-- Render a hundredths count as a decimal string with two fraction
digits. -/
def fixed2OfInt (n : Int) : String :=
  (if n < 0 then "-" else "") ++ Nat.repr (n.natAbs / 100) ++ "." ++
    (if n.natAbs % 100 < 10 then "0" ++ Nat.repr (n.natAbs % 100) else Nat.repr (n.natAbs % 100))

/-- JS `Number.prototype.toFixed(2)` on an exact rational value. -/
def toFixed2 (q : Rat) : String :=
  fixed2OfInt (jsRound2 q)

/-- The Avg APY value: `positions.reduce((sum, p) => sum + parseAPY(p.apy), 0)
/ positions.length`. -/
def avgApyValue (ps : List TreasuryPosition) : Rat :=
  (ps.foldl (fun sum p => sum + parseAPY p.apy) 0) / (ps.length : Rat)

/-- The Avg APY card text (without the trailing `%` sign):
`positions.length > 0 ? (...).toFixed(2) : "0.00"`. -/
def avgApyDisplay (ps : List TreasuryPosition) : String :=
  if 0 < ps.length then toFixed2 (avgApyValue ps) else "0.00"

/-- The arithmetic mean of the parsed percentage strings across the loaded
position set, as the specification words it; for the empty set the `Rat`
division by zero makes it 0, matching the specified default. -/
def specAvgApy (ps : List TreasuryPosition) : Rat :=
  ((ps.map fun p => parseAPY p.apy).sum) / (ps.length : Rat)

/-! ## Concrete data used by the counterexamples and witnesses -/

/-- A settled transaction carried by the earlier-issued request of the C1
counterexample. -/
def staleTx : Transaction :=
  { id := "tx_001", tx_type := "payment", amount := "10.00", currency := "USD",
    status := "settled", created_at := "2024-01-01T00:00:00Z", customer_email := none }

/-- Response of the earlier-issued request. -/
def staleData : TxData := { transactions := [staleTx], total := 1 }

/-- Response of the later-issued request (an empty page). -/
def freshData : TxData := { transactions := [], total := 0 }

/-- Two overlapping requests, in resolution order: the request issued second
resolves first, the request issued first resolves last. -/
def c1Resolved : List TxRequestRec :=
  [{ issuedAt := 2, response := freshData }, { issuedAt := 1, response := staleData }]

/-- An ApiKeys state in which the create form holds a non-empty name. -/
def c2State : AKState := { akInit with newKeyName := "Production" }

/-- A Transactions state sitting on page 3 with the default filter. -/
def c5State : TxState := { txInit with page := 3, loading := false }

/-- An ApiKeys state in which the reveal dialog is open on a secret. -/
def c6State : AKState :=
  { akInit with createdKey := some "bts_sk_123", showCreatedKey := true, loading := false }

/-- A concrete non-secret key summary, as list fetches return it. -/
def c3Key : ApiKey :=
  { id := "key_001", name := "Prod Server", keyPrefix := "bts_live_a1",
    created_at := "2024-01-01T00:00:00Z", last_used := none,
    permissions := ["read"], status := "active" }

/-- A concrete creation payload: the summary plus the one-time secret. -/
def c3Result : CreateKeyResult :=
  { key := c3Key, secret_key := "bts_live_a1b2c3d4e5" }

/-- An ApiKeys state about to submit the create form. -/
def c3State : AKState := { akInit with newKeyName := "Prod Server", isCreateDialogOpen := true }

/-- Transitions run after the reveal dialog is closed: a list refresh, a
dialog opening, a declined delete, a name edit. None is a successful create. -/
def c3Ops : List AKOp :=
  [AKOp.load (.ok [c3Key]), AKOp.openCreateDialog,
   AKOp.deleteKey "key_001" "Prod Server" false (.ok ()) (.ok []),
   AKOp.setName "Another", AKOp.cancelCreateDialog]

/-- A concrete settings payload echoed by a successful save. -/
def savedSettings : UserSettings :=
  { company_name := "Acme", email := "ops@acme.io", website := "https://acme.io",
    registration_number := "R-1", kyc_status := "verified" }

/-- Treasury position with APY string `"4%"`. -/
def pos4 : TreasuryPosition :=
  { name := "USDC Lending", protocol := "Aave", balance := "1000", value := 1000, apy := "4%" }

/-- Treasury position with APY string `"6%"`. -/
def pos6 : TreasuryPosition :=
  { name := "ETH Staking", protocol := "Lido", balance := "2", value := 5000, apy := "6%" }

/-- Treasury position with a malformed APY string. -/
def posBad : TreasuryPosition :=
  { name := "Vault", protocol := "Yearn", balance := "1", value := 100, apy := "bad" }

/-! ## C1 — overlapping fetches on the list view -/

/-- C1, counterexample: with two overlapping transactions fetches, the
request issued second resolves first; when the stale response of the
first-issued request then arrives, `loadTransactions` applies it anyway (it
has no staleness check), so the displayed items and total are those of the
*stale* request, not of the most recently issued request whose response
resolved, contradicting the claim that the stale response is discarded. -/
theorem stale_response_overwrites_newer :
    mostRecentIssued c1Resolved = some { issuedAt := 2, response := freshData } ∧
    (applyResolved txInit c1Resolved).transactions = staleData.transactions ∧
    (applyResolved txInit c1Resolved).transactions ≠ freshData.transactions ∧
    (applyResolved txInit c1Resolved).total ≠ freshData.total := by
  decide

/-- C1, amended: the controller applies every resolved response by plain
overwrite, so the items and total that end up displayed are those of the
response that *resolved last*, regardless of the order in which the requests
were issued; a stale in-flight response arriving after a newer request's
response is applied, not discarded. -/
theorem applyResolved_last_resolved_wins (s : TxState) (rs : List TxRequestRec)
    (r : TxRequestRec) :
    (applyResolved s (rs ++ [r])).transactions = r.response.transactions ∧
    (applyResolved s (rs ++ [r])).total = r.response.total := by
  constructor <;> simp [applyResolved, List.foldl_append, txResolveOk]

/-! ## C2 — unauthorized handling -/

/-- C2, counterexample: a create-key mutation that fails with a message
containing `401` only raises an error toast; it does not clear the stored
credential or cached profile and does not redirect to the login view,
contradicting the claim that loads and mutations alike tear down the session
on an unauthorized failure. -/
theorem createKey_unauthorized_leaves_session :
    isUnauthorizedMsg "401 Unauthorized" = true ∧
    (akStep c2State (.create (.error "401 Unauthorized") (.ok []))).2.2 =
      [Eff.toastError "401 Unauthorized"] ∧
    Eff.removeAuthToken ∉ (akStep c2State (.create (.error "401 Unauthorized") (.ok []))).2.2 ∧
    Eff.removeUser ∉ (akStep c2State (.create (.error "401 Unauthorized") (.ok []))).2.2 ∧
    Eff.redirectLogin ∉ (akStep c2State (.create (.error "401 Unauthorized") (.ok []))).2.2 := by
  decide

/-- C2, amended: the four *load* paths handle an unauthorized failure
(message containing `401` or `Unauthorized`) by clearing the stored
credential and cached profile and redirecting to login, and surface every
other failure message; the *mutation* paths (key create, key delete,
settings save) surface the failure as an error toast regardless of its
classification and never tear down the session. -/
theorem unauthorized_teardown_loads_only (msg : String) (s : TxState) (a b : AKState)
    (st : SettingsState) (t : TreasuryState) (id nm : String)
    (rl : Except String (List ApiKey))
    (hname : jsTrim b.newKeyName ≠ "") :
    (txResolveErr s msg).2 = (if isUnauthorizedMsg msg then sessionTeardown else []) ∧
    (txResolveErr s msg).1.error =
      (if isUnauthorizedMsg msg then s.error else some (jsOr msg "Failed to load transactions")) ∧
    (applyAkLoad a (.error msg)).2 = (if isUnauthorizedMsg msg then sessionTeardown else []) ∧
    (applyAkLoad a (.error msg)).1.error =
      (if isUnauthorizedMsg msg then a.error else some (jsOr msg "Failed to load API keys")) ∧
    (loadSettings st (.error msg)).2.2 = (if isUnauthorizedMsg msg then sessionTeardown else []) ∧
    (loadSettings st (.error msg)).1.error =
      (if isUnauthorizedMsg msg then none else some (jsOr msg "Failed to load settings")) ∧
    (loadTreasury t (.error msg)).2.2 = (if isUnauthorizedMsg msg then sessionTeardown else []) ∧
    (loadTreasury t (.error msg)).1.error =
      (if isUnauthorizedMsg msg then none else some (jsOr msg "Failed to load treasury data")) ∧
    (akStep b (.create (.error msg) rl)).2.2 =
      [Eff.toastError (jsOr msg "Failed to create API key")] ∧
    (akStep a (.deleteKey id nm true (.error msg) rl)).2.2 =
      [Eff.toastError (jsOr msg "Failed to delete API key")] ∧
    (handleSave st (.error msg)).2.2 = [Eff.toastError (jsOr msg "Failed to update settings")] := by
  by_cases h : isUnauthorizedMsg msg <;>
    simp [txResolveErr, applyAkLoad, loadSettings, loadTreasury, akStep, handleSave, h, hname]

/-- C2, witness: the amended theorem applied at a concrete failing message
and concrete page states. -/
theorem unauthorized_teardown_loads_only_witness :
    jsTrim c2State.newKeyName ≠ "" ∧
    (handleSave settingsInit (.error "boom")).2.2 =
      [Eff.toastError (jsOr "boom" "Failed to update settings")] :=
  ⟨by decide,
   (unauthorized_teardown_loads_only "boom" txInit akInit c2State settingsInit treasuryInit
      "key_001" "Prod Server" (.ok []) (by decide)).2.2.2.2.2.2.2.2.2.2⟩

/-! ## C3 — the one-time secret -/

/-- Any transition other than a successful create leaves an absent
`createdKey` absent: no other code path writes the transient secret. -/
lemma akStep_createdKey_none (t : AKState) (op : AKOp) (h : op.isCreateOk = false)
    (hc : t.createdKey = none) : ((akStep t op).1).createdKey = none := by
  cases op with
  | load outcome =>
      cases outcome with
      | ok d => simpa [akStep, applyAkLoad] using hc
      | error msg =>
          by_cases hu : isUnauthorizedMsg msg <;> simp [akStep, applyAkLoad, hu, hc]
  | setName v => simpa [akStep] using hc
  | openCreateDialog => simpa [akStep] using hc
  | cancelCreateDialog => simpa [akStep] using hc
  | create outcome reload =>
      cases outcome with
      | ok r => simp [AKOp.isCreateOk] at h
      | error msg => by_cases hn : jsTrim t.newKeyName = "" <;> simp [akStep, hn, hc]
  | deleteKey id nm confirmed outcome reload =>
      cases confirmed with
      | false => simpa [akStep] using hc
      | true =>
          cases outcome with
          | error msg => simpa [akStep] using hc
          | ok u =>
              cases reload with
              | ok d => simpa [akStep, applyAkLoad] using hc
              | error msg =>
                  by_cases hu : isUnauthorizedMsg msg <;> simp [akStep, applyAkLoad, hu, hc]
  | closeCreatedKeyDialog => simp [akStep]

/-- Along any run that contains no successful create, an absent secret stays
absent. -/
lemma akRun_createdKey_none (ops : List AKOp) (t : AKState)
    (h : ∀ op ∈ ops, op.isCreateOk = false) (hc : t.createdKey = none) :
    (akRun t ops).createdKey = none := by
  induction ops generalizing t with
  | nil => simpa [akRun] using hc
  | cons op rest ih =>
      have hstep := akStep_createdKey_none t op (h op (List.mem_cons_self op rest)) hc
      have htail : ∀ o ∈ rest, AKOp.isCreateOk o = false :=
        fun o ho => h o (List.mem_cons_of_mem op ho)
      simpa [akRun] using ih ((akStep t op).1) htail hstep

/-- The `keys` list is only ever replaced wholesale by a server payload (the
result of a `GET api_keys`), never patched locally; in particular the secret
string never enters it. -/
lemma akStep_keys_from_server (t : AKState) (op : AKOp) :
    ((akStep t op).1).keys = t.keys ∨ AKOp.loadedList op = some ((akStep t op).1).keys := by
  cases op with
  | load outcome =>
      cases outcome with
      | ok d => right; simp [akStep, applyAkLoad, AKOp.loadedList]
      | error msg =>
          left; by_cases hu : isUnauthorizedMsg msg <;> simp [akStep, applyAkLoad, hu]
  | setName v => left; simp [akStep]
  | openCreateDialog => left; simp [akStep]
  | cancelCreateDialog => left; simp [akStep]
  | create outcome reload =>
      by_cases hn : jsTrim t.newKeyName = ""
      · left; simp [akStep, hn]
      · cases outcome with
        | error msg => left; simp [akStep, hn]
        | ok r =>
            cases reload with
            | ok d => right; simp [akStep, hn, applyAkLoad, AKOp.loadedList]
            | error msg =>
                left; by_cases hu : isUnauthorizedMsg msg <;>
                  simp [akStep, hn, applyAkLoad, hu]
  | deleteKey id nm confirmed outcome reload =>
      cases confirmed with
      | false => left; simp [akStep]
      | true =>
          cases outcome with
          | error msg => left; simp [akStep]
          | ok u =>
              cases reload with
              | ok d => right; simp [akStep, applyAkLoad, AKOp.loadedList]
              | error msg =>
                  left; by_cases hu : isUnauthorizedMsg msg <;>
                    simp [akStep, applyAkLoad, hu]
  | closeCreatedKeyDialog => left; simp [akStep]

/-- C3: after a successful creation the returned secret is held in the
transient reveal state and shown; the persisted key-list model is only ever
replaced by whole `GET api_keys` payloads, whose record type (`ApiKey`)
carries only the non-secret fields id, name, key prefix, created_at,
last_used, permissions and status; and once the reveal dialog is closed no
sequence of further transitions that is not itself a new successful create
can make the secret reappear. -/
theorem secret_once_reveal (s : AKState) (result : CreateKeyResult)
    (reload : Except String (List ApiKey)) (ops : List AKOp)
    (hname : jsTrim s.newKeyName ≠ "")
    (hops : ∀ op ∈ ops, op.isCreateOk = false) :
    ((akStep s (.create (.ok result) reload)).1).createdKey = some result.secret_key ∧
    ((akStep s (.create (.ok result) reload)).1).showCreatedKey = true ∧
    (∀ t : AKState, ∀ op : AKOp,
        ((akStep t op).1).keys = t.keys ∨ AKOp.loadedList op = some ((akStep t op).1).keys) ∧
    (akRun ((akStep ((akStep s (.create (.ok result) reload)).1)
        .closeCreatedKeyDialog).1) ops).createdKey = none := by
  refine ⟨?_, ?_, akStep_keys_from_server, ?_⟩
  · cases reload with
    | ok d => simp [akStep, hname, applyAkLoad]
    | error msg => by_cases hu : isUnauthorizedMsg msg <;> simp [akStep, hname, applyAkLoad, hu]
  · cases reload with
    | ok d => simp [akStep, hname, applyAkLoad]
    | error msg => by_cases hu : isUnauthorizedMsg msg <;> simp [akStep, hname, applyAkLoad, hu]
  · exact akRun_createdKey_none ops _ hops (by simp [akStep])

/-- C3, witness: the theorem applied to a concrete creation followed by a
refresh, dialog traffic, a declined delete and a name edit. -/
theorem secret_once_reveal_witness :
    (jsTrim c3State.newKeyName ≠ "" ∧ ∀ op ∈ c3Ops, AKOp.isCreateOk op = false) ∧
    (akRun ((akStep ((akStep c3State (.create (.ok c3Result) (.ok [c3Key]))).1)
        .closeCreatedKeyDialog).1) c3Ops).createdKey = none :=
  ⟨⟨by decide, by decide⟩,
   (secret_once_reveal c3State c3Result (.ok [c3Key]) c3Ops (by decide) (by decide)).2.2.2⟩

/-! ## C4 — mutation-reload cycle -/

/-- C4, counterexample: a successful settings save issues only the `PUT`
call and a success toast; it does not re-fetch the settings from the server,
contradicting the claim that every successful mutation unconditionally
re-fetches the authoritative collection. -/
theorem settings_save_skips_refetch :
    (handleSave settingsInit (.ok savedSettings)).2.1 = [Call.putSettings "" "" ""] ∧
    Call.getSettings ∉ (handleSave settingsInit (.ok savedSettings)).2.1 ∧
    (handleSave settingsInit (.ok savedSettings)).2.2 =
      [Eff.toastSuccess "Settings updated successfully"] := by
  decide

/-- C4, amended: after a successful key create or key delete the client
re-fetches the authoritative key list (`GET api_keys` is issued and the
displayed list becomes exactly the server payload, with no local splice),
but a successful settings save issues only the `PUT`: the settings are not
re-fetched. -/
theorem mutation_reload_except_settings (a : AKState) (st : SettingsState)
    (result : CreateKeyResult) (d : List ApiKey) (id nm : String) (pay : UserSettings)
    (hname : jsTrim a.newKeyName ≠ "") :
    Call.getApiKeys ∈ (akStep a (.create (.ok result) (.ok d))).2.1 ∧
    ((akStep a (.create (.ok result) (.ok d))).1).keys = d ∧
    Call.getApiKeys ∈ (akStep a (.deleteKey id nm true (.ok ()) (.ok d))).2.1 ∧
    ((akStep a (.deleteKey id nm true (.ok ()) (.ok d))).1).keys = d ∧
    (handleSave st (.ok pay)).2.1 =
      [Call.putSettings st.settings.company_name st.settings.email st.settings.website] ∧
    Call.getSettings ∉ (handleSave st (.ok pay)).2.1 := by
  simp [akStep, applyAkLoad, handleSave, hname]

/-- C4, witness: the amended theorem applied at a concrete create, delete
and save. -/
theorem mutation_reload_except_settings_witness :
    jsTrim c3State.newKeyName ≠ "" ∧
    ((akStep c3State (.create (.ok c3Result) (.ok [c3Key]))).1).keys = [c3Key] :=
  ⟨by decide,
   (mutation_reload_except_settings c3State settingsInit c3Result [c3Key]
      "key_001" "Prod Server" savedSettings (by decide)).2.1⟩

/-! ## C5 — filter change vs search change -/

/-- C5, counterexample: from page 3, selecting the status filter `settled`
triggers an immediate refetch but leaves the page at 3 — the fetch is issued
with `page = 3` — contradicting the claim that a status-filter change resets
the page number to 1. -/
theorem filter_change_keeps_page :
    ((changeFilter c5State "settled").1).page = 3 ∧
    ((changeFilter c5State "settled").1).page ≠ 1 ∧
    (changeFilter c5State "settled").2 = [Call.getTransactions 3 10 none (some "settled")] := by
  decide

/-- C5, amended: changing the status filter triggers an immediate refetch
with the page left unchanged (no reset to 1); changing the search text
triggers no fetch at all, and only the explicit search submission
(`handleSearch`, wired to both the Enter key and the search button) resets
the page to 1 and fetches. -/
theorem filter_refetch_search_deferred (s : TxState) (v w : String) (hv : v ≠ s.filter) :
    ((changeFilter s v).1).page = s.page ∧
    (changeFilter s v).2 = [txRequest { s with filter := v }] ∧
    (changeSearch s w).2 = [] ∧
    ((changeSearch s w).1).page = s.page ∧
    ((handleSearch s).1).page = 1 ∧
    (handleSearch s).2.head? = some (txRequest s) := by
  have hv' : ¬ s.filter = v := fun hEq => hv hEq.symm
  simp [changeFilter, changeSearch, handleSearch, txEffectCalls, txFetchStart, hv']

/-- C5, witness: the amended theorem applied from page 3 with a fresh filter
value. -/
theorem filter_refetch_search_deferred_witness :
    "settled" ≠ c5State.filter ∧ ((changeFilter c5State "settled").1).page = c5State.page :=
  ⟨by decide, (filter_refetch_search_deferred c5State "settled" "alice" (by decide)).1⟩

/-! ## C6 — closing the reveal dialog -/

/-- C6, counterexample: closing the reveal dialog clears the transient
secret but issues no network call at all — in particular no `GET api_keys`
refresh — contradicting the claim that closing the reveal view triggers a
refresh of the key list. -/
theorem close_reveal_no_refresh :
    (akStep c6State .closeCreatedKeyDialog).2.1 = [] ∧
    Call.getApiKeys ∉ (akStep c6State .closeCreatedKeyDialog).2.1 ∧
    ((akStep c6State .closeCreatedKeyDialog).1).createdKey = none := by
  decide

/-- C6, amended: closing the reveal dialog clears the transient secret and
closes both dialogs without issuing any call or effect; the key-list refresh
happens earlier, inside the successful create itself, which issues
`GET api_keys` before the reveal dialog is ever closed, so the created key
already appears only as its non-secret summary. -/
theorem close_clears_secret_refresh_at_create (s a : AKState) (result : CreateKeyResult)
    (reload : Except String (List ApiKey)) (hname : jsTrim a.newKeyName ≠ "") :
    ((akStep s .closeCreatedKeyDialog).1).createdKey = none ∧
    ((akStep s .closeCreatedKeyDialog).1).showCreatedKey = false ∧
    ((akStep s .closeCreatedKeyDialog).1).isCreateDialogOpen = false ∧
    (akStep s .closeCreatedKeyDialog).2.1 = [] ∧
    (akStep s .closeCreatedKeyDialog).2.2 = [] ∧
    Call.getApiKeys ∈ (akStep a (.create (.ok result) reload)).2.1 := by
  cases reload with
  | ok d => simp [akStep, hname, applyAkLoad]
  | error msg => simp [akStep, hname, applyAkLoad]

/-- C6, witness: the amended theorem applied to a concrete open reveal
dialog and a concrete create. -/
theorem close_clears_secret_refresh_at_create_witness :
    jsTrim c3State.newKeyName ≠ "" ∧
    ((akStep c6State .closeCreatedKeyDialog).1).createdKey = none :=
  ⟨by decide,
   (close_clears_secret_refresh_at_create c6State c3State c3Result (.ok [c3Key])
      (by decide)).1⟩

/-! ## C7 — page clamping -/

/-- C7: when the last fetch returned fewer than pageSize (10) items the Next
button is disabled, so requesting the next page is a no-op issuing no fetch;
and every transition of the Transactions page preserves `1 ≤ page`, which
holds initially, so the page number can never go below 1. -/
theorem page_guard (s : TxState) (h10 : s.transactions.length < 10) :
    nextPageClick s = (s, []) ∧
    (∀ t : TxState, 1 ≤ t.page →
        1 ≤ ((nextPageClick t).1).page ∧
        1 ≤ ((prevPageClick t).1).page ∧
        1 ≤ ((handleSearch t).1).page ∧
        (∀ v, 1 ≤ ((changeFilter t v).1).page ∧ 1 ≤ ((changeSearch t v).1).page) ∧
        (∀ d, 1 ≤ (txResolveOk t d).page) ∧
        (∀ m, 1 ≤ ((txResolveErr t m).1).page)) ∧
    1 ≤ txInit.page := by
  refine ⟨by simp [nextPageClick, h10], ?_, by decide⟩
  intro t ht
  refine ⟨?_, ?_, ?_, ?_, ?_, ?_⟩
  · by_cases h : t.transactions.length < 10
    · simpa [nextPageClick, h] using ht
    · simp [nextPageClick, h, txFetchStart]
  · by_cases h : t.page = 1
    · simp [prevPageClick, h]
    · simp only [prevPageClick, if_neg h]
      split <;> simp [txFetchStart, le_max_iff]
  · simp [handleSearch, txFetchStart]
  · intro v
    constructor
    · by_cases h : txEffectCalls t { t with filter := v } = [] <;>
        simpa [changeFilter, h, txFetchStart] using ht
    · simpa [changeSearch] using ht
  · intro d
    simpa [txResolveOk] using ht
  · intro m
    by_cases h : isUnauthorizedMsg m <;> simpa [txResolveErr, h] using ht

/-- C7, witness: the theorem applied at the initial state, whose last fetch
holds fewer than 10 items. -/
theorem page_guard_witness :
    txInit.transactions.length < 10 ∧ nextPageClick txInit = (txInit, []) :=
  ⟨by decide, (page_guard txInit (by decide)).1⟩

/-! ## C8 — the Avg APY aggregate -/

/-- Folding the APY sum equals the mapped sum. -/
lemma foldl_parseAPY (ps : List TreasuryPosition) (a : Rat) :
    ps.foldl (fun sum p => sum + parseAPY p.apy) a = a + (ps.map fun p => parseAPY p.apy).sum := by
  induction ps generalizing a with
  | nil => simp
  | cons p rest ih => simp [ih, add_assoc]

/-- The string `"4%"` parses to 4. -/
lemma parseAPY_four : parseAPY "4%" = 4 := by
  have h : jsParseFloatRep (String.mk (removeFirst '%' "4%".data)) = some ((4 : Int), (0 : Int)) := by
    decide
  simp [parseAPY, jsParseFloat, h, repToRat]

/-- The string `"6%"` parses to 6. -/
lemma parseAPY_six : parseAPY "6%" = 6 := by
  have h : jsParseFloatRep (String.mk (removeFirst '%' "6%".data)) = some ((6 : Int), (0 : Int)) := by
    decide
  simp [parseAPY, jsParseFloat, h, repToRat]

/-- The malformed string `"bad"` parses to NaN, which `|| 0` turns into 0. -/
lemma parseAPY_bad : parseAPY "bad" = 0 := by
  have h : jsParseFloatRep (String.mk (removeFirst '%' "bad".data)) = none := by
    decide
  simp [parseAPY, jsParseFloat, h]

/-- Rounding 5 to hundredths gives 500. -/
lemma jsRound2_five : jsRound2 5 = 500 := by
  show Int.floor ((5 : Rat) * 100 + 1 / 2) = 500
  rw [show (5 : Rat) * 100 + 1 / 2 = 1001 / 2 by norm_num, Int.floor_eq_iff]
  norm_num

/-- Rounding 0 to hundredths gives 0. -/
lemma jsRound2_zero : jsRound2 0 = 0 := by
  show Int.floor ((0 : Rat) * 100 + 1 / 2) = 0
  rw [show (0 : Rat) * 100 + 1 / 2 = 1 / 2 by norm_num, Int.floor_eq_iff]
  norm_num

/-- The mean of the two concrete positions is 5. -/
lemma avgApyValue_pair : avgApyValue [pos4, pos6] = 5 := by
  simp [avgApyValue, pos4, pos6, parseAPY_four, parseAPY_six]
  norm_num

/-- The Avg APY card over `[4%, 6%]` shows `5.00`. -/
lemma avgApyDisplay_pair : avgApyDisplay [pos4, pos6] = "5.00" := by
  have h5 : toFixed2 5 = "5.00" := by
    show fixed2OfInt (jsRound2 5) = "5.00"
    rw [jsRound2_five]
    decide
  simp [avgApyDisplay, avgApyValue_pair, h5]

/-- The Avg APY card over the single malformed position shows `0.00`. -/
lemma avgApyDisplay_bad : avgApyDisplay [posBad] = "0.00" := by
  have hv : avgApyValue [posBad] = 0 := by
    simp [avgApyValue, posBad, parseAPY_bad]
  have h0 : toFixed2 0 = "0.00" := by
    show fixed2OfInt (jsRound2 0) = "0.00"
    rw [jsRound2_zero]
    decide
  simp [avgApyDisplay, hv, h0]

/-- C8: the Avg APY value computed by the Treasury card is the arithmetic
mean of the positions' APY strings parsed with the `%` sign removed, where a
malformed string parses to 0 and the empty set yields 0; on the concrete
sets, `[4%, 6%]` displays `5.00`, `[]` displays `0.00` and `[bad]` displays
`0.00`. -/
theorem avg_apy_mean (ps : List TreasuryPosition) :
    avgApyValue ps = specAvgApy ps ∧
    parseAPY "4%" = 4 ∧ parseAPY "6%" = 6 ∧ parseAPY "bad" = 0 ∧
    avgApyDisplay [pos4, pos6] = "5.00" ∧
    avgApyDisplay [] = "0.00" ∧
    avgApyDisplay [posBad] = "0.00" := by
  refine ⟨?_, parseAPY_four, parseAPY_six, parseAPY_bad, avgApyDisplay_pair, ?_, avgApyDisplay_bad⟩
  · simp [avgApyValue, specAvgApy, foldl_parseAPY]
  · simp [avgApyDisplay]

/-! ## C9 — declined delete confirmation -/

/-- C9: when the `confirm` prompt of `handleDeleteKey` is declined, the
handler returns before any work: the transition issues zero network calls,
produces no effect, and leaves the whole ApiKeys state unchanged. -/
theorem delete_declined_noop (s : AKState) (id keyName : String)
    (outcome : Except String Unit) (reload : Except String (List ApiKey)) :
    akStep s (.deleteKey id keyName false outcome reload) = (s, [], []) := by
  simp [akStep]

/-! ## C10 — the stale-closure page on search submit -/

/-- C10: the fetch issued directly by `handleSearch` closes over the render
state, so it carries the page value from before the reset to 1; a second
fetch at page 1 follows only when the page actually changed (issued by the
`[page, filter]` effect), and when the page already was 1 exactly one fetch,
at page 1, is issued. -/
theorem search_submit_stale_page (s : TxState) :
    (handleSearch s).2.head? = some (Call.getTransactions s.page 10
      (if s.search = "" then none else some s.search)
      (if s.filter = "all" then none else some s.filter)) ∧
    (handleSearch s).2.tail = (if s.page = 1 then [] else [txRequest { s with page := 1 }]) ∧
    ((handleSearch s).1).page = 1 := by
  refine ⟨rfl, ?_, rfl⟩
  by_cases h : s.page = 1 <;> simp [handleSearch, txEffectCalls, h]

end Bytus
